import Mathlib

/-!
Shallow embedding of `qsdk/electronic_structure_solvers/vqe_solver.py`.

The code under verification is the VQE orchestration class `VQESolver`.
External collaborators (the fermion-to-qubit mapping, the ansatz circuit
classes, the simulation backend, the molecular-data layer, scipy's
minimizer) are outside the repository and are modelled as abstract
function parameters; the VQE control flow itself is translated line by
line from the source.

Modelling conventions:
* Python exceptions are `Except PyError`; methods return the updated
  instance state together with the result, and where the claim needs the
  post-exception state (the RDM extractor), the error also carries the
  instance state at the raise site.
* Instance attribute mutation is explicit state passing on the record
  `VQESolver`.  Attributes that only come into existence during `build`
  (`backend`, `qubit_hamiltonian`, `fermionic_hamiltonian`, the consumed
  fields of `qemist_molecule`) are `Option`-valued with `none` meaning the
  attribute is absent, so that reading them raises `AttributeError` as in
  Python.
* Real numbers produced by the backend are modelled as rationals; the
  backend expectation value is a deterministic function of the Hamiltonian
  and the circuit, which is the noiseless, shot-free backend of the spec.
* Opaque collaborator objects (molecule, mean-field) are natural-number
  handles; Python `None` is `Option.none` for them.
-/

/-- Python exception classes raised or propagated by `vqe_solver.py`.  In
Python's class hierarchy none of these is a subclass of another; in
particular `AttributeError` is not a `RuntimeError`. -/
inductive PyError where
  | keyError (msg : String)
  | valueError (msg : String)
  | typeError (msg : String)
  | runtimeError (msg : String)
  | attributeError (msg : String)
  deriving DecidableEq

/-- Whether a method outcome is a propagated `RuntimeError`. -/
def isRuntimeErr {α : Type} : Except PyError α → Bool
  | .error (.runtimeError _) => true
  | _ => false

/-- Whether a method outcome is a propagated `AttributeError`. -/
def isAttrErr {α : Type} : Except PyError α → Bool
  | .error (.attributeError _) => true
  | _ => false

/-- Whether an `Except` result is a normal return. -/
def exceptIsOk {ε α : Type} : Except ε α → Bool
  | .ok _ => true
  | .error _ => false

/-- Enumeration of the ansatz circuits supported by VQE
(`class Ansatze(Enum)`, lines 19-23). -/
inductive Ansatze where
  | UCCSD
  | UCC1
  | UCC3
  deriving DecidableEq

/-- How a member of `Ansatze` renders in a Python format string
(`"{}".format(self.ansatz)`). -/
def Ansatze.pyStr : Ansatze → String
  | .UCCSD => "Ansatze.UCCSD"
  | .UCC1 => "Ansatze.UCC1"
  | .UCC3 => "Ansatze.UCC3"

/-- A key of the fermionic Hamiltonian: an ordered tuple of
(spin-orbital index, raising/lowering flag) operator descriptors, of
length 0 (constant term), 2 (one-body) or 4 (two-body). -/
abbrev FTerm : Type := List (ℕ × Bool)

/-- `FermionicHamiltonian`: ordered mapping from term keys to coefficients.
Iteration (`for ikey, key in enumerate(self.fermionic_hamiltonian)`)
follows the list order; as a Python dict, keys are unique. -/
structure FermionicOperator where
  terms : List (FTerm × ℚ)
  deriving DecidableEq

/-- Python `H[k]`: the coefficient stored at key `k` (0 when absent). -/
def FermionicOperator.coeff (H : FermionicOperator) (k : FTerm) : ℚ :=
  (H.terms.find? (fun kv => decide (kv.1 = k))).elim 0 Prod.snd

/-- Lines 205-208 of `get_rdm`: deep-copy the fermionic Hamiltonian and
overwrite every coefficient with
`1. if (key == key2 and ikey != 0) else 0.`. -/
def select_term (H : FermionicOperator) (key : FTerm) (ikey : ℕ) : FermionicOperator :=
  ⟨H.terms.map fun kv => (kv.1, if kv.1 = key ∧ ikey ≠ 0 then (1 : ℚ) else 0)⟩

/-- In-place `rdm1_np[i, j] += v` on the one-particle RDM array, modelled
as a total function on index pairs. -/
def upd1 (m : ℕ → ℕ → ℚ) (i j : ℕ) (v : ℚ) : ℕ → ℕ → ℚ :=
  fun a b => if a = i ∧ b = j then m a b + v else m a b

/-- In-place `rdm2_np[i, j, k, l] += v` on the two-particle RDM array. -/
def upd2 (m : ℕ → ℕ → ℕ → ℕ → ℚ) (i j k l : ℕ) (v : ℚ) : ℕ → ℕ → ℕ → ℕ → ℚ :=
  fun a b c d => if a = i ∧ b = j ∧ c = k ∧ d = l then m a b c d + v else m a b c d

/-- Lines 199-203 and 227-235 of `get_rdm`: collapse each spin-orbital
index by integer division by 2 and accumulate the term energy into the
RDM arrays.  Keys of length other than 2 or 4 contribute nothing (the
`if length == 2 / elif length == 4` chain falls through). -/
def accumRdm (key : FTerm) (e : ℚ) (rdm1 : ℕ → ℕ → ℚ) (rdm2 : ℕ → ℕ → ℕ → ℕ → ℚ) :
    (ℕ → ℕ → ℚ) × (ℕ → ℕ → ℕ → ℕ → ℚ) :=
  match key with
  | [a, b] => (upd1 rdm1 (a.1 / 2) (b.1 / 2) e, rdm2)
  | [a, b, c, d] =>
    let i := a.1 / 2
    let j := b.1 / 2
    let k := c.1 / 2
    let l := d.1 / 2
    if i ≠ l ∨ j ≠ k then
      (rdm1, upd2 (upd2 rdm2 l i k j ((1 : ℚ) / 2 * e)) i l j k ((1 : ℚ) / 2 * e))
    else
      (rdm1, upd2 rdm2 i l j k e)
  | _ => (rdm1, rdm2)

/-- An object satisfying the Ansatz capability set (spec §3): in-place
variational parameters, a circuit of type `C` determined by them, the
mean-field reference (only `len(self.ansatz.mf.mo_energy)` is consumed),
and the external `set_var_params` behaviour used by `build`. -/
structure AnsatzObj (C : Type) where
  var_params : List ℚ
  circuitOf : List ℚ → C
  moEnergyLen : ℕ
  set_var_params : Option (List ℚ) → Except PyError (List ℚ)

/-- The `ansatz` attribute of a solver instance: a built-in identifier
(before `build`), a concrete ansatz object (after `build`, or
user-supplied), or Python `None`. -/
inductive AnsatzField (C : Type) where
  | builtin (a : Ansatze)
  | obj (a : AnsatzObj C)
  | pynone

/-- Python truthiness of the `ansatz` attribute: enum members and objects
are truthy, `None` is falsy. -/
def AnsatzField.truthy {C : Type} : AnsatzField C → Bool
  | .pynone => false
  | _ => true

/-- The simulation backend (`agnostic_simulator.Simulator`): a
deterministic (noiseless, shot-free) expectation-value oracle over qubit
Hamiltonians of type `Q` and circuits of type `C`. -/
structure Backend (Q C : Type) where
  get_expectation_value : Q → C → Except PyError ℚ

/-- The `backend_options` configuration record (spec §6). -/
structure BackendOptions where
  target : String
  n_shots : Option ℕ
  noise_model : Option String

/-- The consumed surface of `MolecularData` (`self.qemist_molecule`):
`n_qubits`, `n_electrons`, and the `get_molecular_hamiltonian()` result. -/
structure QemistMolecule where
  n_qubits : ℕ
  n_electrons : ℕ
  molecular_hamiltonian : Except PyError FermionicOperator

/-- External collaborators of the Hamiltonian pipeline:
`fermion_to_qubit_mapping`, `QubitOperator.compress`, the `.terms`
attribute used for cache equality, and `count_qubits`.  `Q` is the qubit
operator type, `T` the type of its `.terms` attribute. -/
structure MappingKit (Q T : Type) where
  fermion_to_qubit_mapping : FermionicOperator → String → ℕ → ℕ → Bool → Except PyError Q
  compress : Q → Q
  termsOf : Q → T
  count_qubits : Q → ℕ

/-- External constructors consumed by `build`: the mean-field provider,
the molecular-data layer, the ansatz classes, and the simulator. -/
structure Externals (Q C : Type) where
  prepare_mf_RHF : Option ℕ → Except PyError ℕ
  molecularData : Option ℕ → Option ℕ → List ℕ → Except PyError QemistMolecule
  uccsd : QemistMolecule → String → Option ℕ → Bool → Except PyError (AnsatzObj C)
  rucc : ℕ → Except PyError (AnsatzObj C)
  simulator : String → Option ℕ → Option String → Except PyError (Backend Q C)

/-- The attribute state of a `VQESolver` instance after `__init__`.
Attributes first assigned inside `build` (`backend`, `qubit_hamiltonian`,
`fermionic_hamiltonian` and the consumed fields of `qemist_molecule`) are
`Option`-valued, `none` meaning the attribute does not exist yet.  The
`optimizer` attribute is a function and is supplied to `simulate` as an
argument rather than stored, since Lean records of functions cannot be
compared; everything proved about `simulate` quantifies over it. -/
structure VQESolver (Q C : Type) where
  molecule : Option ℕ
  mean_field : Option ℕ
  frozen_orbitals : List ℕ
  qubit_mapping : String
  ansatz : AnsatzField C
  initial_var_params : Option (List ℚ)
  backend_options : BackendOptions
  up_then_down : Bool
  verbose : Bool
  optimal_energy : Option ℚ
  optimal_var_params : Option (List ℚ)
  backend : Option (Backend Q C)
  qubit_hamiltonian : Option Q
  fermionic_hamiltonian : Option FermionicOperator
  n_spinorbitals : Option ℕ
  n_electrons : Option ℕ

namespace VQESolver

variable {Q C T : Type}

/-- Lines 148-165: `energy_estimation`.  Evaluation order follows the
source: `self.ansatz.update_var_params(np.array(var_params))` first (an
`Ansatze` enum member or `None` has no such method, raising
`AttributeError`), then the `self.backend` attribute lookup, then the
`self.qubit_hamiltonian` argument.  The verbose print is a no-op here. -/
def energy_estimation (s : VQESolver Q C) (var_params : List ℚ) :
    VQESolver Q C × Except PyError ℚ :=
  match s.ansatz with
  | .builtin _ =>
    (s, .error (.attributeError "Ansatze object has no attribute update_var_params"))
  | .pynone =>
    (s, .error (.attributeError "NoneType object has no attribute update_var_params"))
  | .obj a =>
    let a2 : AnsatzObj C := { a with var_params := var_params }
    let s2 : VQESolver Q C := { s with ansatz := .obj a2 }
    match s2.backend with
    | none => (s2, .error (.attributeError "VQESolver object has no attribute backend"))
    | some b =>
      match s2.qubit_hamiltonian with
      | none =>
        (s2, .error (.attributeError "VQESolver object has no attribute qubit_hamiltonian"))
      | some qh =>
        match b.get_expectation_value qh (a2.circuitOf a2.var_params) with
        | .error e => (s2, .error e)
        | .ok energy => (s2, .ok energy)

/-- Lines 127-132: `simulate`.  `if not (self.ansatz and self.backend)`
evaluates `self.ansatz` first; when it is truthy the conjunction goes on
to read the `self.backend` attribute (raising `AttributeError` before
`build`), and only a falsy `self.ansatz` short-circuits into the
`RuntimeError`.  The instance's `optimizer` attribute is the argument. -/
def simulate
    (optimizer : VQESolver Q C → Option (List ℚ) → VQESolver Q C × Except PyError ℚ)
    (s : VQESolver Q C) : VQESolver Q C × Except PyError ℚ :=
  if s.ansatz.truthy = false then
    (s, .error (.runtimeError
      "No ansatz circuit or hardware backend built. Have you called VQESolver.build ?"))
  else
    match s.backend with
    | none => (s, .error (.attributeError "VQESolver object has no attribute backend"))
    | some _ => optimizer s s.initial_var_params

/-- Result object of `scipy.optimize.minimize` (fields `x`, `fun`,
`nfev`; `fun` is a Lean keyword, hence `resFun`). -/
structure MinimizeResult where
  x : List ℚ
  resFun : ℚ
  nfev : ℕ

/-- Lines 243-270: `_default_optimizer`.  `scipy.optimize.minimize` is an
external collaborator passed in as `minimize`: it drives the instance
through repeated `energy_estimation` calls and returns the final instance
state together with the scipy result object.  The optimizer records
`optimal_var_params` and `optimal_energy` and returns `result.fun`. -/
def default_optimizer
    (minimize : VQESolver Q C → Option (List ℚ) → VQESolver Q C × MinimizeResult)
    (s : VQESolver Q C) (var_params : Option (List ℚ)) :
    VQESolver Q C × Except PyError ℚ :=
  let r := minimize s var_params
  ({ r.1 with optimal_var_params := some r.2.x, optimal_energy := some r.2.resFun },
   .ok r.2.resFun)

end VQESolver

/-- One event of the RDM extraction loop (lines 218-225): either the
Energy Estimator was invoked on a fresh compressed term structure, or a
previously cached structure was hit and its stored energy reused. -/
inductive RdmEvent (T : Type) where
  | call (t : T) (e : ℚ)
  | hit (t : T) (e : ℚ)
  deriving DecidableEq

/-- The structure/energy pairs of the estimator-call events, in order. -/
def callPairs {T : Type} : List (RdmEvent T) → List (T × ℚ)
  | [] => []
  | .call t e :: rest => (t, e) :: callPairs rest
  | .hit _ _ :: rest => callPairs rest

/-- The structure/energy pairs of the cache-hit events, in order. -/
def hitPairs {T : Type} : List (RdmEvent T) → List (T × ℚ)
  | [] => []
  | .hit t e :: rest => (t, e) :: hitPairs rest
  | .call _ _ :: rest => hitPairs rest

/-- Python `list.index`: index of the first occurrence of `a`. -/
def listIndex {α : Type} [DecidableEq α] (a : α) : List α → ℕ
  | [] => 0
  | b :: l => if b = a then 0 else listIndex a l + 1

/-- Loop state of `get_rdm`: the instance state, the two RDM
accumulators (`rdm1_np`, `rdm2_np`), the parallel cache lists
`lookup_ham` / `lookup_val` of lines 190-191, and the event history of
the estimator usage (the instrumentation the spec asks to verify with). -/
structure RdmAcc (Q C T : Type) where
  st : VQESolver Q C
  rdm1 : ℕ → ℕ → ℚ
  rdm2 : ℕ → ℕ → ℕ → ℕ → ℚ
  lookup_ham : List T
  lookup_val : List ℚ
  events : List (RdmEvent T)

namespace VQESolver

variable {Q C T : Type}

/-- Lines 194-235: the per-term loop of `get_rdm`, over the enumerated
term list of the fermionic Hamiltonian `fermH` (never mutated by the
loop).  On a propagated exception from the mapping subsystem or the
backend, the instance state at the raise site is returned with the
error — the source has no `try/finally`. -/
def rdmLoop [DecidableEq T] (kit : MappingKit Q T) (fermH : FermionicOperator)
    (var_params : List ℚ) :
    List (ℕ × (FTerm × ℚ)) → RdmAcc Q C T →
    Except (VQESolver Q C × PyError) (RdmAcc Q C T)
  | [], acc => .ok acc
  | (ikey, key, _) :: rest, acc =>
    -- if not key: continue
    if key = [] then rdmLoop kit fermH var_params rest acc
    else
      match acc.st.n_spinorbitals, acc.st.n_electrons with
      | some nspin, some nelec =>
        let ht := select_term fermH key ikey
        match kit.fermion_to_qubit_mapping ht acc.st.qubit_mapping nspin nelec
            acc.st.up_then_down with
        | .error e => .error (acc.st, e)
        | .ok q2raw =>
          let q2 := kit.compress q2raw
          let t := kit.termsOf q2
          if t ∈ acc.lookup_ham then
            -- opt_energy2 = lookup_val[lookup_ham.index(...)]
            let e := acc.lookup_val.getD (listIndex t acc.lookup_ham) 0
            let rs := accumRdm key e acc.rdm1 acc.rdm2
            rdmLoop kit fermH var_params rest
              { acc with rdm1 := rs.1, rdm2 := rs.2, events := acc.events ++ [.hit t e] }
          else
            -- self.qubit_hamiltonian = qubit_hamiltonian2; estimate; append
            let st1 := { acc.st with qubit_hamiltonian := some q2 }
            let res := energy_estimation st1 var_params
            match res.2 with
            | .error err => .error (res.1, err)
            | .ok e =>
              let rs := accumRdm key e acc.rdm1 acc.rdm2
              rdmLoop kit fermH var_params rest
                { st := res.1, rdm1 := rs.1, rdm2 := rs.2,
                  lookup_ham := acc.lookup_ham ++ [t],
                  lookup_val := acc.lookup_val ++ [e],
                  events := acc.events ++ [.call t e] }
      | _, _ => .error (acc.st, .attributeError "VQESolver object has no attribute qemist_molecule")

/-- Lines 167-240: `get_rdm`.  Attribute reads follow the source order:
`tmp_hamiltonian = self.qubit_hamiltonian` (line 183), then
`self.ansatz.mf.mo_energy` (line 186, only its existence matters here
since the RDM arrays are total functions), then the iteration over
`self.fermionic_hamiltonian`.  On success the saved Hamiltonian is
written back (line 238). -/
def get_rdm [DecidableEq T] (kit : MappingKit Q T) (s : VQESolver Q C)
    (var_params : List ℚ) :
    Except (VQESolver Q C × PyError) (VQESolver Q C × RdmAcc Q C T) :=
  match s.qubit_hamiltonian with
  | none => .error (s, .attributeError "VQESolver object has no attribute qubit_hamiltonian")
  | some tmp =>
    match s.ansatz with
    | .builtin _ => .error (s, .attributeError "Ansatze object has no attribute mf")
    | .pynone => .error (s, .attributeError "NoneType object has no attribute mf")
    | .obj _ =>
      match s.fermionic_hamiltonian with
      | none =>
        .error (s, .attributeError "VQESolver object has no attribute fermionic_hamiltonian")
      | some fermH =>
        match rdmLoop kit fermH var_params fermH.terms.enum
            { st := s, rdm1 := fun _ _ => 0, rdm2 := fun _ _ _ _ => 0,
              lookup_ham := [], lookup_val := [], events := [] } with
        | .error se => .error se
        | .ok acc => .ok ({ acc.st with qubit_hamiltonian := some tmp }, acc)

/-- Lines 79-125: `build`.  The mean-field step, the molecular-data and
Hamiltonian construction, the UCC1/UCC3 validation of lines 95-105 (in
source order: mapping identifier, then spin ordering, then qubit count),
the ansatz resolution of lines 107-118, parameter preparation and the
backend construction.  Errors surface with the state mutated so far. -/
def build [DecidableEq T] (ext : Externals Q C) (kit : MappingKit Q T)
    (s0 : VQESolver Q C) : VQESolver Q C × Except PyError Unit :=
  -- if not self.mean_field: self.mean_field = prepare_mf_RHF(self.molecule)
  let step1 : VQESolver Q C × Except PyError Unit :=
    match s0.mean_field with
    | none =>
      match ext.prepare_mf_RHF s0.molecule with
      | .error e => (s0, .error e)
      | .ok mf => ({ s0 with mean_field := some mf }, .ok ())
    | some _ => (s0, .ok ())
  match step1 with
  | (s1, .error e) => (s1, .error e)
  | (s1, .ok _) =>
    match ext.molecularData s1.molecule s1.mean_field s1.frozen_orbitals with
    | .error e => (s1, .error e)
    | .ok qm =>
      let s2 : VQESolver Q C :=
        { s1 with n_spinorbitals := some qm.n_qubits, n_electrons := some qm.n_electrons }
      match qm.molecular_hamiltonian with
      | .error e => (s2, .error e)
      | .ok fh =>
        let s3 : VQESolver Q C := { s2 with fermionic_hamiltonian := some fh }
        match kit.fermion_to_qubit_mapping fh s3.qubit_mapping qm.n_qubits
            qm.n_electrons s3.up_then_down with
        | .error e => (s3, .error e)
        | .ok qh =>
          let s4 : VQESolver Q C := { s3 with qubit_hamiltonian := some qh }
          -- Verification of system compatibility with UCC1 or UCC3 circuits
          let validationError : Option PyError :=
            match s4.ansatz with
            | .builtin a =>
              if a = .UCC1 ∨ a = .UCC3 then
                if s4.qubit_mapping ≠ "jw" then
                  some (.valueError s!"Qubit mapping must be JW for {a.pyStr} ansatz.")
                else if s4.up_then_down = false then
                  some (.valueError
                    s!"Parameter up_then_down must be set to True for {a.pyStr} ansatz.")
                else if kit.count_qubits qh ≠ 4 then
                  some (.valueError
                    s!"The system must be reduced to a HOMO-LUMO problem for {a.pyStr} ansatz.")
                else none
              else none
            | _ => none
          match validationError with
          | some e => (s4, .error e)
          | none =>
            -- Build / set ansatz circuit
            let resolved : VQESolver Q C × Except PyError (AnsatzObj C) :=
              match s4.ansatz with
              | .builtin a =>
                match a with
                | .UCCSD =>
                  (s4, ext.uccsd qm s4.qubit_mapping s4.mean_field s4.up_then_down)
                | .UCC1 => (s4, ext.rucc 1)
                | .UCC3 => (s4, ext.rucc 3)
              | .obj a => (s4, .ok a)
              | .pynone =>
                (s4, .error (.typeError
                  "Invalid ansatz dataype. Expecting instance of Ansatz class, or one of built-in options"))
            match resolved.2 with
            | .error e => (resolved.1, .error e)
            | .ok aobj =>
              -- self.initial_var_params = self.ansatz.set_var_params(self.initial_var_params)
              match aobj.set_var_params s4.initial_var_params with
              | .error e => ({ s4 with ansatz := .obj aobj }, .error e)
              | .ok ivp =>
                let a2 : AnsatzObj C := { aobj with var_params := ivp }
                let s5 : VQESolver Q C :=
                  { s4 with ansatz := .obj a2, initial_var_params := some ivp }
                -- self.ansatz.build_circuit(); circuit = a2.circuitOf, built once
                match ext.simulator s5.backend_options.target s5.backend_options.n_shots
                    s5.backend_options.noise_model with
                | .error e => (s5, .error e)
                | .ok b => ({ s5 with backend := some b }, .ok ())

end VQESolver

/-! ### The `__init__` layer (lines 51-77)

`__init__` merges user options into the instance attribute dictionary.
At this layer the attribute dictionary is modelled directly, with opaque
values for everything whose content `__init__` does not inspect. -/

/-- Python values stored in the construction-options dictionary. -/
inductive PyVal where
  | pynone
  | pybool (b : Bool)
  | pyint (n : Int)
  | pystr (s : String)
  | pyobj (tag : String) (id : ℕ)
  deriving DecidableEq

/-- Python truthiness of an option value. -/
def PyVal.truthy : PyVal → Bool
  | .pynone => false
  | .pybool b => b
  | .pyint n => n != 0
  | .pystr s => s != ""
  | .pyobj _ _ => true

/-- An attribute dictionary: ordered key/value pairs with unique keys. -/
abbrev PyDict : Type := List (String × PyVal)

/-- `d[k] = v`: overwrite the binding if the key exists, else append. -/
def dictSet (d : PyDict) (k : String) (v : PyVal) : PyDict :=
  if d.any (fun kv => kv.1 == k) then
    d.map (fun kv => if kv.1 = k then (k, v) else kv)
  else d ++ [(k, v)]

/-- `d[k]` with `None` for a missing key (only used on present keys). -/
def dictGet (d : PyDict) (k : String) : PyVal :=
  ((d.find? (fun kv => kv.1 == k)).map Prod.snd).getD .pynone

/-- Lines 53-60: the recognized configuration surface with its default
values.  Values other than `molecule`, `up_then_down` and `verbose` are
opaque at this layer. -/
def default_options : PyDict :=
  [("molecule", .pynone), ("mean_field", .pynone), ("frozen_orbitals", .pyobj "list" 0),
   ("qubit_mapping", .pystr "jw"), ("ansatz", .pyobj "Ansatze.UCCSD" 0),
   ("optimizer", .pyobj "bound_method" 0), ("initial_var_params", .pynone),
   ("backend_options", .pyobj "dict" 0), ("up_then_down", .pybool false),
   ("verbose", .pybool false)]

/-- Whether `k in default_options` holds (the keyword check of line 66). -/
def recognizedKey (k : String) : Bool :=
  default_options.any (fun kv => kv.1 == k)

/-- Lines 65-69: overwrite defaults with user options, raising `KeyError`
at the first unrecognized keyword. -/
def applyOptions : List (String × PyVal) → PyDict → Except PyError PyDict
  | [], d => .ok d
  | (k, v) :: rest, d =>
    if recognizedKey k then applyOptions rest (dictSet d k v)
    else .error (.keyError s!"Keyword :: {k}, not available in VQESolver")

/-- Lines 51-77: `VQESolver.__init__` on the attribute dictionary:
defaults, user overwrites, the molecule truthiness check, then the
`optimal_energy` / `optimal_var_params` / `builtin_ansatze` assignments. -/
def vqe_init (opt_dict : List (String × PyVal)) : Except PyError PyDict :=
  match applyOptions opt_dict default_options with
  | .error e => .error e
  | .ok d =>
    if (dictGet d "molecule").truthy = false then
      .error (.valueError "A molecule object must be provided when instantiating VQESolver")
    else
      .ok (dictSet (dictSet (dictSet d "optimal_energy" .pynone)
        "optimal_var_params" .pynone) "builtin_ansatze" (.pyobj "set" 0))

/-! ### Concrete instantiations

Small executable instantiations of the abstract collaborator parameters,
used to evaluate the embedding on concrete inputs. -/

/-- A solver state with every build-produced attribute absent and every
configured attribute at an inert value. -/
def junkState : VQESolver ℕ Unit :=
  { molecule := none, mean_field := none, frozen_orbitals := [],
    qubit_mapping := "jw", ansatz := .pynone, initial_var_params := none,
    backend_options := ⟨"qulacs", none, none⟩, up_then_down := false,
    verbose := false, optimal_energy := none, optimal_var_params := none,
    backend := none, qubit_hamiltonian := none, fermionic_hamiltonian := none,
    n_spinorbitals := none, n_electrons := none }

/-- A concrete ansatz object over the trivial circuit type. -/
def ansatzW : AnsatzObj Unit :=
  { var_params := [], circuitOf := fun _ => (), moEnergyLen := 2,
    set_var_params := fun o => .ok (o.getD []) }

/-- A concrete three-term fermionic Hamiltonian: the constant term first,
then two one-body terms. -/
def fermW : FermionicOperator :=
  ⟨[([], 9), ([(0, true), (0, false)], 2), ([(2, true), (2, false)], 3)]⟩

/-- A mapping whose output structure is the same for every input: every
RDM term collides in the cache. -/
def kitHit : MappingKit ℕ ℕ :=
  { fermion_to_qubit_mapping := fun _ _ _ _ _ => .ok 5, compress := id,
    termsOf := id, count_qubits := fun _ => 4 }

/-- Qubit-operator code of a per-term Hamiltonian produced by
`select_term` on `fermW`: 1 for the first one-body term, 2 for the
second, 0 otherwise. -/
def selCode (ht : FermionicOperator) : ℕ :=
  if ht.coeff [(0, true), (0, false)] = 1 then 1
  else if ht.coeff [(2, true), (2, false)] = 1 then 2 else 0

/-- A mapping that distinguishes the two one-body terms of `fermW`. -/
def kitSel : MappingKit ℕ ℕ :=
  { fermion_to_qubit_mapping := fun ht _ _ _ _ => .ok (selCode ht), compress := id,
    termsOf := id, count_qubits := fun _ => 4 }

/-- A backend returning the Hamiltonian code as the energy. -/
def backendOk : Backend ℕ Unit := ⟨fun q _ => .ok (q : ℚ)⟩

/-- A backend that fails on Hamiltonian code 2 and succeeds otherwise. -/
def backendBoom : Backend ℕ Unit :=
  ⟨fun q _ => if q = 2 then .error (.valueError "simulation failed") else .ok 7⟩

/-- A fully built solver state over the concrete collaborators. -/
def builtState : VQESolver ℕ Unit :=
  { junkState with
    molecule := some 1,
    mean_field := some 1,
    ansatz := .obj ansatzW,
    backend := some backendOk,
    qubit_hamiltonian := some 100,
    fermionic_hamiltonian := some fermW,
    n_spinorbitals := some 4,
    n_electrons := some 2 }

/-- The built state wired to the failing backend. -/
def errState : VQESolver ℕ Unit := { builtState with backend := some backendBoom }

/-- The instance state carried by the outcome of running `get_rdm` on
`errState` (the state at the raise site, since that run fails). -/
def errRunState : VQESolver ℕ Unit :=
  match VQESolver.get_rdm kitSel errState ([] : List ℚ) with
  | .error (st, _) => st
  | .ok (st, _) => st

/-- The final instance state of the successful `get_rdm` run on
`builtState` with the colliding mapping. -/
def okRunState : VQESolver ℕ Unit :=
  match VQESolver.get_rdm kitHit builtState ([] : List ℚ) with
  | .ok (st, _) => st
  | .error (st, _) => st

/-- The final loop accumulator of the same successful run. -/
def okRunAcc : RdmAcc ℕ Unit ℕ :=
  match VQESolver.get_rdm kitHit builtState ([] : List ℚ) with
  | .ok (_, acc) => acc
  | .error _ => ⟨junkState, fun _ _ => 0, fun _ _ _ _ => 0, [], [], []⟩

/-- The attribute state right after `__init__` with only a molecule
supplied: the configuration defaults, no `backend` attribute. -/
def preBuildState : VQESolver ℕ Unit :=
  { junkState with molecule := some 1, ansatz := .builtin .UCCSD }

/-- A concrete stand-in for `scipy.optimize.minimize`. -/
def minimizeW : VQESolver ℕ Unit → Option (List ℚ) → VQESolver ℕ Unit × VQESolver.MinimizeResult :=
  fun s _ => (s, ⟨[1, 2], 42, 7⟩)

/-- Concrete build collaborators. -/
def extW : Externals ℕ Unit :=
  { prepare_mf_RHF := fun _ => .ok 0,
    molecularData := fun _ _ _ => .ok ⟨4, 2, .ok fermW⟩,
    uccsd := fun _ _ _ _ => .ok ansatzW,
    rucc := fun _ => .ok ansatzW,
    simulator := fun _ _ _ => .ok backendOk }

/-- A configured state requesting UCC1 with a non-JW mapping. -/
def preUCC1State : VQESolver ℕ Unit :=
  { junkState with
    molecule := some 1,
    mean_field := some 2,
    qubit_mapping := "bk",
    ansatz := .builtin .UCC1,
    up_then_down := true }

/-- A one-body term key. -/
def kC4 : FTerm := [(0, true), (0, false)]

/-- A fermionic Hamiltonian whose FIRST iterated key is a non-empty
(one-body) term: no constant term at position 0. -/
def HC4 : FermionicOperator := ⟨[(kC4, 5)]⟩

/-- A fermionic Hamiltonian with the constant term first, as `get_rdm`
documents ("The first element of the Hamiltonian is the nuclear repulsion
energy term"). -/
def HC4b : FermionicOperator := ⟨[([], 9), (kC4, 5)]⟩

/-- The RDM cache invariant: the parallel lists mirror the
estimator-call events, the cached structures are pairwise distinct, and
every cache hit replays a previous call. -/
def accInv {Q C T : Type} (acc : RdmAcc Q C T) : Prop :=
  acc.lookup_ham = (callPairs acc.events).map Prod.fst
  ∧ acc.lookup_val = (callPairs acc.events).map Prod.snd
  ∧ acc.lookup_ham.Nodup
  ∧ hitPairs acc.events ⊆ callPairs acc.events

/-! ### Helper lemmas -/

/-- `callPairs` distributes over event-list concatenation. -/
theorem callPairs_append {T : Type} (l1 l2 : List (RdmEvent T)) :
    callPairs (l1 ++ l2) = callPairs l1 ++ callPairs l2 := by
  induction l1 with
  | nil => simp [callPairs]
  | cons h t ih => cases h <;> simp [callPairs, ih]

/-- `hitPairs` distributes over event-list concatenation. -/
theorem hitPairs_append {T : Type} (l1 l2 : List (RdmEvent T)) :
    hitPairs (l1 ++ l2) = hitPairs l1 ++ hitPairs l2 := by
  induction l1 with
  | nil => simp [hitPairs]
  | cons h t ih => cases h <;> simp [hitPairs, ih]

/-- Looking an element up by `listIndex` in the projected first components
and reading the parallel second components recovers a pair of the list. -/
theorem pairLookup {T : Type} [DecidableEq T] (ps : List (T × ℚ)) (t : T)
    (h : t ∈ ps.map Prod.fst) :
    (t, (ps.map Prod.snd).getD (listIndex t (ps.map Prod.fst)) 0) ∈ ps := by
  induction ps with
  | nil => simp at h
  | cons hd tl ih =>
    by_cases he : hd.1 = t
    · simp only [List.map_cons, listIndex, if_pos he, List.getD_cons_zero]
      subst he
      simp
    · simp only [List.map_cons, listIndex, if_neg he, List.getD_cons_succ]
      have ht : t ∈ tl.map Prod.fst := by
        rcases List.mem_cons.mp h with h1 | h1
        · exact absurd h1.symm he
        · exact h1
      exact List.mem_cons_of_mem _ (ih ht)

/-! ### Claim theorems -/

/-- C9: `energy_estimation` mutates only the ansatz's in-place parameter
state — the `optimal_energy`, `optimal_var_params`, `initial_var_params`,
`qubit_hamiltonian` and `fermionic_hamiltonian` attributes are unchanged
by the call, on every control path. -/
theorem energy_estimation_frame {Q C : Type} (s : VQESolver Q C) (p : List ℚ) :
    (VQESolver.energy_estimation s p).1.optimal_energy = s.optimal_energy
    ∧ (VQESolver.energy_estimation s p).1.optimal_var_params = s.optimal_var_params
    ∧ (VQESolver.energy_estimation s p).1.initial_var_params = s.initial_var_params
    ∧ (VQESolver.energy_estimation s p).1.qubit_hamiltonian = s.qubit_hamiltonian
    ∧ (VQESolver.energy_estimation s p).1.fermionic_hamiltonian = s.fermionic_hamiltonian := by
  obtain ⟨mol, mf, fo, qmap, ans, ivp, bo, utd, vb, oe, ovp, bk, qh, fh, ns, ne⟩ := s
  cases ans with
  | builtin a => simp [VQESolver.energy_estimation]
  | pynone => simp [VQESolver.energy_estimation]
  | obj a =>
    cases bk with
    | none => simp [VQESolver.energy_estimation]
    | some b =>
      cases qh with
      | none => simp [VQESolver.energy_estimation]
      | some q =>
        cases hr : b.get_expectation_value q (a.circuitOf p) <;>
          simp [VQESolver.energy_estimation, hr]

/-- C8: with the (noiseless, shot-free) deterministic backend model, two
consecutive `energy_estimation` calls with identical parameters on a
built solver return the same outcome: the first call only rewrites the
ansatz parameters to the same values the second call uses. -/
theorem energy_estimation_deterministic {Q C : Type} (s : VQESolver Q C) (a : AnsatzObj C)
    (b : Backend Q C) (qh : Q) (p : List ℚ)
    (ha : s.ansatz = .obj a) (hb : s.backend = some b)
    (hq : s.qubit_hamiltonian = some qh) :
    (VQESolver.energy_estimation s p).2
      = (VQESolver.energy_estimation (VQESolver.energy_estimation s p).1 p).2 := by
  obtain ⟨mol, mf, fo, qmap, ans, ivp, bo, utd, vb, oe, ovp, bk, qhf, fh, ns, ne⟩ := s
  simp only at ha hb hq
  subst ha hb hq
  cases hr : b.get_expectation_value qh (a.circuitOf p) <;>
    simp [VQESolver.energy_estimation, hr]

/-- C10: a successful `simulate` with the default optimizer returns
exactly the scalar that it records into `optimal_energy`, and records the
minimizer's solution vector into `optimal_var_params`, whatever those
attributes held before the call (so each call overwrites them). -/
theorem simulate_records_optimal {Q C : Type}
    (minimize : VQESolver Q C → Option (List ℚ) → VQESolver Q C × VQESolver.MinimizeResult)
    (s : VQESolver Q C) (b : Backend Q C)
    (ht : s.ansatz.truthy = true) (hb : s.backend = some b) :
    (VQESolver.simulate (VQESolver.default_optimizer minimize) s).2
      = .ok (minimize s s.initial_var_params).2.resFun
    ∧ (VQESolver.simulate (VQESolver.default_optimizer minimize) s).1.optimal_energy
      = some (minimize s s.initial_var_params).2.resFun
    ∧ (VQESolver.simulate (VQESolver.default_optimizer minimize) s).1.optimal_var_params
      = some (minimize s s.initial_var_params).2.x := by
  unfold VQESolver.simulate VQESolver.default_optimizer
  simp [ht, hb]

/-- C10 witness: the concrete built state with the stand-in minimizer. -/
theorem simulate_records_optimal_witness :
    (VQESolver.simulate (VQESolver.default_optimizer minimizeW) builtState).2 = .ok 42
    ∧ (VQESolver.simulate (VQESolver.default_optimizer minimizeW) builtState).1.optimal_energy
      = some 42
    ∧ (VQESolver.simulate (VQESolver.default_optimizer minimizeW) builtState).1.optimal_var_params
      = some [1, 2] :=
  simulate_records_optimal minimizeW builtState backendOk rfl rfl

/-- C2 (as stated, refuted): on the attribute state right after
`__init__`, `energy_estimation` and `simulate` do fail, but with an
`AttributeError` — which is not in Python's `RuntimeError` class — because
`energy_estimation` performs no build check at all (the `Ansatze` enum
member has no `update_var_params`) and `simulate` reads the missing
`backend` attribute inside its own guard before that guard can raise. -/
theorem prebuild_calls_lack_runtime_error :
    isRuntimeErr (VQESolver.energy_estimation preBuildState []).2 = false
    ∧ isAttrErr (VQESolver.energy_estimation preBuildState []).2 = true
    ∧ isRuntimeErr (VQESolver.simulate (VQESolver.default_optimizer minimizeW) preBuildState).2
      = false
    ∧ isAttrErr (VQESolver.simulate (VQESolver.default_optimizer minimizeW) preBuildState).2
      = true :=
  ⟨rfl, rfl, rfl, rfl⟩

/-- C2 (amended): before `build` (no `backend` attribute) both calls
fail — `energy_estimation` always with an `AttributeError`, `simulate`
with an `AttributeError` when the ansatz attribute is truthy and with the
documented `RuntimeError` only when the ansatz attribute is falsy. -/
theorem prebuild_calls_fail_with_attribute_error {Q C : Type} (s : VQESolver Q C) (p : List ℚ)
    (optimizer : VQESolver Q C → Option (List ℚ) → VQESolver Q C × Except PyError ℚ)
    (hb : s.backend = none) :
    isAttrErr (VQESolver.energy_estimation s p).2 = true
    ∧ (s.ansatz.truthy = true → isAttrErr (VQESolver.simulate optimizer s).2 = true)
    ∧ (s.ansatz.truthy = false → (VQESolver.simulate optimizer s).2
        = .error (.runtimeError
          "No ansatz circuit or hardware backend built. Have you called VQESolver.build ?")) := by
  obtain ⟨mol, mf, fo, qmap, ans, ivp, bo, utd, vb, oe, ovp, bk, qh, fh, ns, ne⟩ := s
  simp only at hb
  subst hb
  refine ⟨?_, ?_, ?_⟩
  · cases ans <;> simp [VQESolver.energy_estimation, isAttrErr]
  · intro h
    simp [VQESolver.simulate, h, isAttrErr]
  · intro h
    simp [VQESolver.simulate, h]

/-- C2 witness: the concrete post-`__init__` state. -/
theorem prebuild_calls_fail_with_attribute_error_witness :
    isAttrErr (VQESolver.energy_estimation preBuildState []).2 = true
    ∧ isAttrErr (VQESolver.simulate (VQESolver.default_optimizer minimizeW) preBuildState).2
      = true :=
  ⟨(prebuild_calls_fail_with_attribute_error preBuildState []
      (VQESolver.default_optimizer minimizeW) rfl).1,
   (prebuild_calls_fail_with_attribute_error preBuildState []
      (VQESolver.default_optimizer minimizeW) rfl).2.1 rfl⟩

/-- The selected key itself receives coefficient 1 when its iteration
index is nonzero. -/
theorem select_term_coeff_self (l : List (FTerm × ℚ)) (key : FTerm) (ikey : ℕ)
    (hik : ikey ≠ 0) (hmem : key ∈ l.map Prod.fst) :
    (select_term ⟨l⟩ key ikey).coeff key = 1 := by
  induction l with
  | nil => simp at hmem
  | cons hd tl ih =>
    by_cases he : hd.1 = key
    · simp [select_term, FermionicOperator.coeff, List.find?, he, hik]
    · have ht : key ∈ tl.map Prod.fst := by
        rcases List.mem_cons.mp hmem with h1 | h1
        · exact absurd h1.symm he
        · exact h1
      have := ih ht
      simpa [select_term, FermionicOperator.coeff, List.find?, he] using this

/-- Every key other than the selected one receives coefficient 0. -/
theorem select_term_coeff_other (l : List (FTerm × ℚ)) (key k2 : FTerm) (ikey : ℕ)
    (hne : k2 ≠ key) :
    (select_term ⟨l⟩ key ikey).coeff k2 = 0 := by
  induction l with
  | nil => simp [select_term, FermionicOperator.coeff]
  | cons hd tl ih =>
    by_cases he : hd.1 = k2
    · simp only [select_term, FermionicOperator.coeff, List.map_cons, List.find?, he,
        decide_eq_true_eq, if_pos rfl]
      have hnk : ¬(k2 = key ∧ ikey ≠ 0) := fun hc => hne hc.1
      simp [List.find?, hnk]
    · simpa [select_term, FermionicOperator.coeff, List.find?, he] using ih

/-- C4 (as stated, refuted): a non-empty term key sitting at iteration
position 0 — which the claim's "regardless of the term's position"
quantifies over — receives coefficient 0, not 1, because of the
`ikey != 0` conjunct on line 208 (the code reserves position 0 for the
constant nuclear-repulsion term). -/
theorem select_term_zero_at_position_zero :
    HC4.terms.enum = [(0, (kC4, (5 : ℚ)))]
    ∧ (select_term HC4 kC4 0).coeff kC4 = 0
    ∧ (0 : ℚ) ≠ 1 := by
  refine ⟨rfl, rfl, ?_⟩
  norm_num

/-- C4 (amended): for every term key iterated at a nonzero position, the
derived per-term Hamiltonian has coefficient 1 on the current term and 0
on every other term, the original coefficient being discarded; a
non-empty term at position 0 instead receives an all-zero Hamiltonian. -/
theorem select_term_unit_coefficient (H : FermionicOperator) (key k2 : FTerm) (ikey : ℕ)
    (hik : ikey ≠ 0) (hmem : key ∈ H.terms.map Prod.fst) :
    (select_term H key ikey).coeff key = 1
    ∧ (k2 ≠ key → (select_term H key ikey).coeff k2 = 0) := by
  obtain ⟨l⟩ := H
  exact ⟨select_term_coeff_self l key ikey hik hmem,
    fun hne => select_term_coeff_other l key k2 ikey hne⟩

/-- C4 witness: the second term of a Hamiltonian with the constant term
first. -/
theorem select_term_unit_coefficient_witness :
    (select_term HC4b kC4 1).coeff kC4 = 1
    ∧ (select_term HC4b kC4 1).coeff [] = 0 :=
  ⟨(select_term_unit_coefficient HC4b kC4 [] 1 (by decide) (by decide)).1,
   (select_term_unit_coefficient HC4b kC4 [] 1 (by decide) (by decide)).2 (by decide)⟩

/-- Pointwise unfolding of `upd1`. -/
theorem upd1_apply (m : ℕ → ℕ → ℚ) (i j : ℕ) (v : ℚ) (a b : ℕ) :
    upd1 m i j v a b = if a = i ∧ b = j then m a b + v else m a b := rfl

/-- Pointwise unfolding of `upd2`. -/
theorem upd2_apply (m : ℕ → ℕ → ℕ → ℕ → ℚ) (i j k l : ℕ) (v : ℚ) (a b c d : ℕ) :
    upd2 m i j k l v a b c d
      = if a = i ∧ b = j ∧ c = k ∧ d = l then m a b c d + v else m a b c d := rfl

/-- C6: the accumulation step of `get_rdm` places the term energies
exactly as the claim states.  A one-body term with collapsed indices
`(i, j)` adds its full energy at `rdm1[i, j]` and leaves `rdm2` alone; a
two-body term with collapsed indices `(i, j, k, l)` adds half its energy
at each of `rdm2[l, i, k, j]` and `rdm2[i, l, j, k]` when `i ≠ l` or
`j ≠ k` and otherwise its full energy once at `rdm2[i, l, j, k]`, leaving
`rdm1` alone; and an empty (constant) key is skipped by the loop without
touching anything. -/
theorem rdm_accumulation_indices {Q C T : Type} [DecidableEq T]
    (kit : MappingKit Q T) (fermH : FermionicOperator) (p : List ℚ)
    (a b c d : ℕ × Bool) (e : ℚ) (rdm1 : ℕ → ℕ → ℚ) (rdm2 : ℕ → ℕ → ℕ → ℕ → ℚ)
    (ikey : ℕ) (coeff : ℚ) (rest : List (ℕ × (FTerm × ℚ))) (acc : RdmAcc Q C T) :
    (∀ x y, (accumRdm [a, b] e rdm1 rdm2).1 x y
        = rdm1 x y + (if x = a.1 / 2 ∧ y = b.1 / 2 then e else 0))
    ∧ (accumRdm [a, b] e rdm1 rdm2).2 = rdm2
    ∧ (∀ x y z w, (accumRdm [a, b, c, d] e rdm1 rdm2).2 x y z w
        = rdm2 x y z w +
          (if a.1 / 2 ≠ d.1 / 2 ∨ b.1 / 2 ≠ c.1 / 2 then
            (if x = d.1 / 2 ∧ y = a.1 / 2 ∧ z = c.1 / 2 ∧ w = b.1 / 2
              then (1 : ℚ) / 2 * e else 0)
            + (if x = a.1 / 2 ∧ y = d.1 / 2 ∧ z = b.1 / 2 ∧ w = c.1 / 2
              then (1 : ℚ) / 2 * e else 0)
          else
            (if x = a.1 / 2 ∧ y = d.1 / 2 ∧ z = b.1 / 2 ∧ w = c.1 / 2 then e else 0)))
    ∧ (accumRdm [a, b, c, d] e rdm1 rdm2).1 = rdm1
    ∧ (VQESolver.rdmLoop kit fermH p ((ikey, ([], coeff)) :: rest) acc
        = VQESolver.rdmLoop kit fermH p rest acc) := by
  refine ⟨?_, rfl, ?_, ?_, ?_⟩
  · intro x y
    simp only [accumRdm, upd1_apply]
    split_ifs <;> ring
  · intro x y z w
    by_cases hd2 : a.1 / 2 ≠ d.1 / 2 ∨ b.1 / 2 ≠ c.1 / 2
    · simp only [accumRdm, if_pos hd2, upd2_apply]
      split_ifs <;> ring
    · simp only [accumRdm, if_neg hd2, upd2_apply]
      split_ifs <;> ring
  · simp only [accumRdm]
    split_ifs <;> rfl
  · simp [VQESolver.rdmLoop]

/-- Option application raises `KeyError` at the first unrecognized
keyword, whatever dictionary state it has reached. -/
theorem applyOptions_first_bad (pre : List (String × PyVal)) (k : String) (v : PyVal)
    (post : List (String × PyVal)) (d : PyDict)
    (hpre : ∀ kv ∈ pre, recognizedKey kv.1 = true) (hk : recognizedKey k = false) :
    applyOptions (pre ++ (k, v) :: post) d
      = .error (.keyError s!"Keyword :: {k}, not available in VQESolver") := by
  induction pre generalizing d with
  | nil => simp [applyOptions, hk]
  | cons hd tl ih =>
    have h1 : recognizedKey hd.1 = true := hpre hd (List.mem_cons_self hd tl)
    simp only [List.cons_append, applyOptions, h1, if_pos]
    exact ih _ (fun kv hm => hpre kv (List.mem_cons_of_mem hd hm))

/-- C7 (as stated, refuted): the options dictionary `{"foo": 1}` lacks a
molecule, and construction does fail — but with the `KeyError` naming the
unknown keyword `foo`, not with the error stating a molecule is
required, because the keyword scan of lines 65-69 runs before the
molecule check of lines 72-73. -/
theorem init_unknown_key_masks_molecule_error :
    (List.all [("foo", PyVal.pyint 1)] (fun kv => !(kv.1 == "molecule"))) = true
    ∧ vqe_init [("foo", PyVal.pyint 1)]
        = .error (.keyError "Keyword :: foo, not available in VQESolver")
    ∧ vqe_init [("foo", PyVal.pyint 1)]
        ≠ .error (.valueError "A molecule object must be provided when instantiating VQESolver") := by
  refine ⟨rfl, rfl, ?_⟩
  intro h
  have h0 : vqe_init [("foo", PyVal.pyint 1)]
      = .error (.keyError "Keyword :: foo, not available in VQESolver") := rfl
  rw [h0] at h
  exact PyError.noConfusion (Except.error.inj h)

/-- C7 (amended): construction fails with the `KeyError` naming the first
unrecognized keyword whenever one is present, and fails with the
`ValueError` stating that a molecule is required whenever every keyword is
recognized but the resulting `molecule` attribute is falsy; the keyword
error takes precedence. -/
theorem init_error_behaviour :
    (∀ (pre : List (String × PyVal)) (k : String) (v : PyVal) (post : List (String × PyVal)),
      (∀ kv ∈ pre, recognizedKey kv.1 = true) → recognizedKey k = false →
      vqe_init (pre ++ (k, v) :: post)
        = .error (.keyError s!"Keyword :: {k}, not available in VQESolver"))
    ∧ (∀ (opt : List (String × PyVal)) (d : PyDict),
      applyOptions opt default_options = .ok d → (dictGet d "molecule").truthy = false →
      vqe_init opt
        = .error (.valueError "A molecule object must be provided when instantiating VQESolver")) := by
  constructor
  · intro pre k v post hpre hk
    unfold vqe_init
    rw [applyOptions_first_bad pre k v post default_options hpre hk]
  · intro opt d hd hmol
    unfold vqe_init
    rw [hd]
    simp [hmol]

/-- C7 witness: a lone bogus keyword, and the empty options dictionary. -/
theorem init_error_behaviour_witness :
    vqe_init [("bogus", PyVal.pyint 3)]
      = .error (.keyError "Keyword :: bogus, not available in VQESolver")
    ∧ vqe_init []
      = .error (.valueError "A molecule object must be provided when instantiating VQESolver") :=
  ⟨init_error_behaviour.1 [] "bogus" (.pyint 3) [] (fun kv hm => absurd hm (by simp))
      (by decide),
   init_error_behaviour.2 [] default_options rfl (by decide)⟩

/-- C3: requesting UCC1 or UCC3 and violating any of the three
preconditions — mapping identifier not `"jw"`, `up_then_down` false, or a
mapped qubit Hamiltonian not acting on exactly 4 qubits — makes `build`
fail with a `ValueError` (the spec's ConfigurationError class) whose
message names the ansatz and the violated constraint, checked in source
order; the `ansatz` attribute still holds the built-in identifier
afterwards, so no ansatz circuit was built. -/
theorem rucc_build_validation {Q C T : Type} [DecidableEq T]
    (ext : Externals Q C) (kit : MappingKit Q T) (s : VQESolver Q C) (a : Ansatze)
    (mf : ℕ) (qm : QemistMolecule) (fh : FermionicOperator) (qh : Q)
    (ha : s.ansatz = .builtin a) (ha2 : a = .UCC1 ∨ a = .UCC3)
    (hmf : s.mean_field = some mf)
    (hqm : ext.molecularData s.molecule s.mean_field s.frozen_orbitals = .ok qm)
    (hfh : qm.molecular_hamiltonian = .ok fh)
    (hqh : kit.fermion_to_qubit_mapping fh s.qubit_mapping qm.n_qubits qm.n_electrons
      s.up_then_down = .ok qh)
    (hviol : s.qubit_mapping ≠ "jw" ∨ s.up_then_down = false ∨ kit.count_qubits qh ≠ 4) :
    (VQESolver.build ext kit s).1.ansatz = .builtin a
    ∧ (s.qubit_mapping ≠ "jw" → (VQESolver.build ext kit s).2
        = .error (.valueError s!"Qubit mapping must be JW for {a.pyStr} ansatz."))
    ∧ (s.qubit_mapping = "jw" → s.up_then_down = false → (VQESolver.build ext kit s).2
        = .error (.valueError s!"Parameter up_then_down must be set to True for {a.pyStr} ansatz."))
    ∧ (s.qubit_mapping = "jw" → s.up_then_down = true → kit.count_qubits qh ≠ 4 →
        (VQESolver.build ext kit s).2
        = .error (.valueError s!"The system must be reduced to a HOMO-LUMO problem for {a.pyStr} ansatz.")) := by
  rw [hmf] at hqm
  refine ⟨?_, ?_, ?_, ?_⟩
  · by_cases h1 : s.qubit_mapping = "jw"
    · cases hu : s.up_then_down with
      | false =>
        rw [h1, hu] at hqh
        rcases ha2 with rfl | rfl <;>
          simp [VQESolver.build, hmf, hqm, hfh, hqh, ha, h1, hu]
      | true =>
        by_cases h3 : kit.count_qubits qh = 4
        · rcases hviol with hv | hv | hv
          · exact absurd h1 hv
          · rw [hu] at hv
            exact Bool.noConfusion hv
          · exact absurd h3 hv
        · rw [h1, hu] at hqh
          rcases ha2 with rfl | rfl <;>
            simp [VQESolver.build, hmf, hqm, hfh, hqh, ha, h1, hu, h3]
    · rcases ha2 with rfl | rfl <;>
        simp [VQESolver.build, hmf, hqm, hfh, hqh, ha, h1]
  · intro hjw
    rcases ha2 with rfl | rfl <;>
      simp [VQESolver.build, hmf, hqm, hfh, hqh, ha, hjw]
  · intro hjw hutd
    rw [hjw, hutd] at hqh
    rcases ha2 with rfl | rfl <;>
      simp [VQESolver.build, hmf, hqm, hfh, hqh, ha, hjw, hutd]
  · intro hjw hutd hcq
    rw [hjw, hutd] at hqh
    rcases ha2 with rfl | rfl <;>
      simp [VQESolver.build, hmf, hqm, hfh, hqh, ha, hjw, hutd, hcq]

/-- C3 witness: UCC1 with a `"bk"` mapping over the concrete
collaborators. -/
theorem rucc_build_validation_witness :
    (VQESolver.build extW kitHit preUCC1State).1.ansatz = AnsatzField.builtin Ansatze.UCC1
    ∧ (VQESolver.build extW kitHit preUCC1State).2
      = .error (.valueError "Qubit mapping must be JW for Ansatze.UCC1 ansatz.") :=
  ⟨(rucc_build_validation extW kitHit preUCC1State .UCC1 2 ⟨4, 2, .ok fermW⟩ fermW 5
      rfl (Or.inl rfl) rfl rfl rfl rfl (Or.inl (by decide))).1,
   (rucc_build_validation extW kitHit preUCC1State .UCC1 2 ⟨4, 2, .ok fermW⟩ fermW 5
      rfl (Or.inl rfl) rfl rfl rfl rfl (Or.inl (by decide))).2.1 (by decide)⟩

/-- The RDM loop preserves the cache invariant on every normally
terminating run. -/
theorem rdmLoop_inv {Q C T : Type} [DecidableEq T] (kit : MappingKit Q T)
    (fermH : FermionicOperator) (p : List ℚ) (l : List (ℕ × (FTerm × ℚ)))
    (acc acc2 : RdmAcc Q C T) (hinv : accInv acc)
    (h : VQESolver.rdmLoop kit fermH p l acc = .ok acc2) : accInv acc2 := by
  induction l generalizing acc with
  | nil =>
    simp only [VQESolver.rdmLoop, Except.ok.injEq] at h
    exact h ▸ hinv
  | cons hd tl ih =>
    obtain ⟨ikey, key, c⟩ := hd
    rw [VQESolver.rdmLoop] at h
    by_cases hk : key = []
    · rw [if_pos hk] at h
      exact ih acc hinv h
    · rw [if_neg hk] at h
      split at h
      next nspin nelec hns hne =>
        simp only [] at h
        split at h
        · exact absurd h (by simp)
        next q2raw hmap =>
          split at h
          next hmem =>
            refine ih _ ?_ h
            obtain ⟨h1, h2, h3, h4⟩ := hinv
            refine ⟨by simpa [callPairs_append, callPairs] using h1,
              by simpa [callPairs_append, callPairs] using h2,
              by simpa using h3, ?_⟩
            have hpair :
                (kit.termsOf (kit.compress q2raw),
                  acc.lookup_val.getD
                    (listIndex (kit.termsOf (kit.compress q2raw)) acc.lookup_ham) 0)
                ∈ callPairs acc.events := by
              rw [h1] at hmem
              rw [h1, h2]
              exact pairLookup (callPairs acc.events) (kit.termsOf (kit.compress q2raw)) hmem
            intro x hx
            simp only [RdmAcc.mk.injEq] at hx ⊢
            rw [hitPairs_append, callPairs_append] at *
            simp only [hitPairs, callPairs, List.append_nil] at *
            rcases List.mem_append.mp hx with hx1 | hx1
            · exact h4 hx1
            · simp only [List.mem_singleton] at hx1
              subst hx1
              exact hpair
          next hmem =>
            split at h
            · exact absurd h (by simp)
            next e hee =>
              refine ih _ ?_ h
              obtain ⟨h1, h2, h3, h4⟩ := hinv
              refine ⟨?_, ?_, ?_, ?_⟩
              · simp [callPairs_append, callPairs, h1]
              · simp [callPairs_append, callPairs, h2]
              · simp only []
                rw [List.nodup_append]
                exact ⟨h3, List.nodup_singleton _,
                  fun x hx1 hx2 => hmem ((List.mem_singleton.mp hx2) ▸ hx1)⟩
              · intro x hx
                simp only [hitPairs_append, callPairs_append] at hx ⊢
                simp only [hitPairs, callPairs, List.append_nil] at hx ⊢
                exact List.mem_append_left _ (h4 hx)
      next hno =>
        exact absurd h (by simp)

/-- C1 (as stated, refuted): when the backend raises during the per-term
energy evaluation of `get_rdm`, the temporarily substituted per-term
Hamiltonian — not the saved original — is left as the active
`qubit_hamiltonian`, because lines 183/238 are a plain save/restore with
no `try/finally`.  Concretely, the failing run leaves code 2 active while
the original Hamiltonian was code 100. -/
theorem get_rdm_not_restored_on_error :
    exceptIsOk (VQESolver.get_rdm kitSel errState ([] : List ℚ)) = false
    ∧ errState.qubit_hamiltonian = some 100
    ∧ errRunState.qubit_hamiltonian = some 2
    ∧ (some 2 : Option ℕ) ≠ some 100 := by
  refine ⟨rfl, rfl, rfl, by decide⟩

/-- C1 (amended): on every `get_rdm` run that returns normally, the
active qubit Hamiltonian is restored to its pre-call value; on a
propagated exception the substituted per-term Hamiltonian may remain
active. -/
theorem get_rdm_restores_hamiltonian_on_success {Q C T : Type} [DecidableEq T]
    (kit : MappingKit Q T) (s s2 : VQESolver Q C) (acc : RdmAcc Q C T) (p : List ℚ)
    (h : VQESolver.get_rdm kit s p = .ok (s2, acc)) :
    s2.qubit_hamiltonian = s.qubit_hamiltonian := by
  unfold VQESolver.get_rdm at h
  split at h
  · exact absurd h (by simp)
  next tmp heq =>
    split at h
    · exact absurd h (by simp)
    · exact absurd h (by simp)
    next aobj hao =>
      split at h
      · exact absurd h (by simp)
      next fermH hfh =>
        split at h
        · exact absurd h (by simp)
        next acc0 hloop =>
          rw [Except.ok.injEq, Prod.mk.injEq] at h
          obtain ⟨h1, h2⟩ := h
          subst h1
          simp [heq]

/-- C1 witness: the successful concrete run restores code 100. -/
theorem get_rdm_restores_hamiltonian_on_success_witness :
    okRunState.qubit_hamiltonian = builtState.qubit_hamiltonian :=
  get_rdm_restores_hamiltonian_on_success kitHit builtState okRunState okRunAcc [] rfl

/-- C5: during one `get_rdm` call, the Energy Estimator is invoked at
most once per distinct compressed qubit-term structure — the structures
of the estimator-call events are pairwise distinct — and every cache-hit
event replays the structure/energy pair of an earlier estimator call,
without substituting the active Hamiltonian or invoking the estimator. -/
theorem rdm_cache_single_evaluation {Q C T : Type} [DecidableEq T] (kit : MappingKit Q T)
    (s s2 : VQESolver Q C) (acc : RdmAcc Q C T) (p : List ℚ)
    (h : VQESolver.get_rdm kit s p = .ok (s2, acc)) :
    ((callPairs acc.events).map Prod.fst).Nodup
    ∧ hitPairs acc.events ⊆ callPairs acc.events := by
  unfold VQESolver.get_rdm at h
  split at h
  · exact absurd h (by simp)
  next tmp heq =>
    split at h
    · exact absurd h (by simp)
    · exact absurd h (by simp)
    next aobj hao =>
      split at h
      · exact absurd h (by simp)
      next fermH hfh =>
        split at h
        · exact absurd h (by simp)
        next acc0 hloop =>
          rw [Except.ok.injEq, Prod.mk.injEq] at h
          obtain ⟨h1, h2⟩ := h
          subst h2
          have hinv := rdmLoop_inv kit fermH p fermH.terms.enum _ acc0
            ⟨rfl, rfl, List.nodup_nil, fun x hx => absurd hx (by simp [hitPairs])⟩ hloop
          obtain ⟨i1, i2, i3, i4⟩ := hinv
          exact ⟨i1 ▸ i3, i4⟩

/-- C5 witness: the concrete run where both one-body terms collapse to
the same mapped structure, producing one call event and one hit event. -/
theorem rdm_cache_single_evaluation_witness :
    ((callPairs okRunAcc.events).map Prod.fst).Nodup
    ∧ hitPairs okRunAcc.events ⊆ callPairs okRunAcc.events :=
  rdm_cache_single_evaluation kitHit builtState okRunState okRunAcc [] rfl

/-- C8 witness: the concrete built state evaluated twice at the same
parameters. -/
theorem energy_estimation_deterministic_witness :
    (VQESolver.energy_estimation builtState [1]).2
      = (VQESolver.energy_estimation (VQESolver.energy_estimation builtState [1]).1 [1]).2 :=
  energy_estimation_deterministic builtState ansatzW backendOk 100 [1] rfl rfl rfl
